import Mathlib

/-!
Shallow embedding of the Weather-Station dashboard's data-refresh and
presentation-normalization pipeline, translated from
`src/components/WeatherDashboard.tsx` and `src/lib/supabase.ts`.

Numbers that are JavaScript `number`s are modelled as `ℚ`; JavaScript
`null`/`undefined` absence is modelled with `Option` (which matches the
semantics of the `??` nullish-coalescing operator used by the code);
record ids, which the code lets be either a source-assigned value or a
synthesized string, are modelled by the sum type `RId`.
-/

/-- A JavaScript id value: the data source may assign numeric or string ids,
and the dashboard synthesizes string ids when none is present. -/
inductive RId where
  | num (n : ℤ)
  | str (s : String)
deriving DecidableEq

/-- One raw row as returned by the data source (`item : any` in
`fetchData`). Per the external-interface contract, every row carries
`created_at`; the other fields may be absent. -/
structure RawRow where
  id : Option RId
  created_at : ℚ
  temp : Option ℚ
  temperature : Option ℚ
  hum : Option ℚ
  humidity : Option ℚ
deriving DecidableEq

/-- The normalized `Reading` type of `WeatherDashboard.tsx` (lines 12-17). -/
structure Reading where
  id : RId
  created_at : ℚ
  temperature : ℚ
  humidity : ℚ
deriving DecidableEq

/-- Normalization of one raw record, from `fetchData` lines 73-79:
`id: item.id ?? \x7breading-$\x7bindex\x7d\x7d`,
`created_at: item.created_at`,
`temperature: item.temp ?? item.temperature ?? 0`,
`humidity: item.hum ?? item.humidity ?? 0`. -/
def mapReading (index : ℕ) (item : RawRow) : Reading :=
  { id := item.id.getD (RId.str ("reading-" ++ toString index))
    created_at := item.created_at
    temperature := item.temp.getD (item.temperature.getD 0)
    humidity := item.hum.getD (item.humidity.getD 0) }

/-- `data.map((item, index) => ...)` with the running index made explicit. -/
def mappedReadingsAux (index : ℕ) : List RawRow → List Reading
  | [] => []
  | item :: rest => mapReading index item :: mappedReadingsAux (index + 1) rest

/-- The full normalization of a fetched batch (`mappedReadings` in
`fetchData`). -/
def mappedReadings (data : List RawRow) : List Reading :=
  mappedReadingsAux 0 data

/-- A structured source-reported error (`error.message`, `error.details`,
`error.hint` as logged at line 67). -/
structure SupabaseError where
  message : String
  details : String
  hint : String
deriving DecidableEq

/-- What one invocation of the remote query can yield: a `{data, error}`
response, or a thrown exception caught by the surrounding `try/catch`. -/
inductive FetchOutcome where
  | resp (data : Option (List RawRow)) (err : Option SupabaseError)
  | thrown (msg : String)
deriving DecidableEq

/-- The diagnostic log entries `fetchData` can emit. -/
inductive LogEntry where
  | supabaseError (message details hint : String)
  | rawData (d : List RawRow)
  | fetchError (msg : String)
deriving DecidableEq

/-- The component state touched by the pipeline: the readings list
(`useState<Reading[]>([])`) and the reveal window (`useState(20)`). -/
structure DashState where
  readings : List Reading
  visibleCount : ℕ
deriving DecidableEq

/-- The component's initial state: `useState<Reading[]>([])` and
`useState(20)`. -/
def initialDashState : DashState :=
  { readings := [], visibleCount := 20 }

/-- One run of `fetchData` (lines 56-88), as a state transition on the
component state together with the log it emits. On a `{data, error}`
response it logs the error detail when `error` is set, and when `data` is
set it replaces the readings with the normalized batch and resets the
reveal window to 20; when `data` is absent the state is left unchanged.
A thrown exception is caught and logged. The function is total: no case
propagates an error to the caller. -/
def fetchData (o : FetchOutcome) (s : DashState) : DashState × List LogEntry :=
  match o with
  | .thrown m => (s, [LogEntry.fetchError m])
  | .resp d e =>
    let errLogs : List LogEntry :=
      match e with
      | some er => [LogEntry.supabaseError er.message er.details er.hint]
      | none => []
    match d with
    | some rows =>
      ({ readings := mappedReadings rows, visibleCount := 20 },
        errLogs ++ [LogEntry.rawData rows])
    | none => (s, errLogs)

/-- `handleScroll` (lines 44-49): when the scroll position is within 50
layout units of the container bottom
(`scrollHeight - scrollTop <= clientHeight + 50`), grow the reveal window
by 20, capped at the total reading count. -/
def handleScroll (scrollTop clientHeight scrollHeight : ℚ) (s : DashState) :
    DashState :=
  if scrollHeight - scrollTop ≤ clientHeight + 50 then
    { s with visibleCount := min (s.visibleCount + 20) s.readings.length }
  else
    s

/-- The derived "latest reading" view: `readings[0] || {temperature: 0,
humidity: 0}` (line 120). An object is always truthy in JavaScript, so a
non-empty list always yields its first element; the empty list yields the
zero placeholder. -/
inductive LatestView where
  | reading (r : Reading)
  | placeholder
deriving DecidableEq

def latest : List Reading → LatestView
  | [] => .placeholder
  | r :: _ => .reading r

/-- The temperature the dashboard reads off the latest view
(`latest.temperature`); the placeholder carries 0. -/
def LatestView.temperature : LatestView → ℚ
  | .reading r => r.temperature
  | .placeholder => 0

/-- The humidity the dashboard reads off the latest view
(`latest.humidity`); the placeholder carries 0. -/
def LatestView.humidity : LatestView → ℚ
  | .reading r => r.humidity
  | .placeholder => 0

/-- `getChartWidth` (lines 123-132), returning the width as a percentage
number (the code renders it as a percent string). With fewer than 2
readings the width is 100; otherwise
`durationHours = (newest - oldest) / (1000 * 60 * 60)` with `newest` the
timestamp of element 0 and `oldest` the timestamp of the last element,
and the width is `durationHours / 24 * 100` when `durationHours > 24`,
else 100. -/
def getChartWidth : List Reading → ℚ
  | [] => 100
  | [_] => 100
  | r :: r2 :: rs =>
    let newest := r.created_at
    let oldest := (List.getLastD rs r2).created_at
    let durationHours := (newest - oldest) / (1000 * 60 * 60)
    if durationHours > 24 then durationHours / 24 * 100 else 100

/-- JavaScript truthiness of an optional environment string: `undefined`
and the empty string are falsy. -/
def jsTruthyStr : Option String → Bool
  | none => false
  | some s => s ≠ ""

/-- Character-list version of "starts with": does `s` begin with `pat`? -/
def leadsWith : List Char → List Char → Bool
  | [], _ => true
  | _ :: _, [] => false
  | p :: ps, c :: cs => p == c && leadsWith ps cs

/-- Does `pat` occur as a contiguous run somewhere in `s`? -/
def occursIn (pat : List Char) : List Char → Bool
  | [] => leadsWith pat []
  | c :: cs => leadsWith pat (c :: cs) || occursIn pat cs

/-- JavaScript `s.includes(pat)`. -/
def jsIncludes (s pat : String) : Bool :=
  occursIn pat.data s.data

/-- `isMock` from `supabase.ts` line 7:
`!supabaseUrl || !supabaseKey || supabaseUrl.includes('your-project-url')`.
The short-circuit of `||` means `includes` is only reached when the URL is
a (truthy) string, which the `match` mirrors. -/
def isMock (supabaseUrl supabaseKey : Option String) : Bool :=
  !(jsTruthyStr supabaseUrl) || !(jsTruthyStr supabaseKey) ||
    (match supabaseUrl with
     | none => false
     | some s => jsIncludes s "your-project-url")

/-- The warning emitted at startup (`supabase.ts` lines 9-11). -/
def startupWarnings (supabaseUrl supabaseKey : Option String) : List String :=
  if isMock supabaseUrl supabaseKey then
    ["Supabase Environment Variables missing. Using Mock Client."]
  else
    []

/-- The two client variants the module can export (`supabase.ts` lines
51-53). -/
inductive Client where
  | mock
  | real
deriving DecidableEq

/-- Which client `supabase.ts` exports: the mock client exactly when
`isMock` holds. -/
def supabaseClient (supabaseUrl supabaseKey : Option String) : Client :=
  if isMock supabaseUrl supabaseKey then .mock else .real

/-- One synthetic row of the mock client (`supabase.ts` lines 27-35).
`sine` and `cosine` stand for `Math.sin`/`Math.cos`, and `randT`/`randH`
for the two independent `Math.random()` draws of row `i` (each uniform in
[0,1)); all are passed in as parameters since they are transcendental or
nondeterministic. `now` is `new Date().getTime()` in milliseconds. -/
def mockRow (sine cosine : ℚ → ℚ) (randT randH : ℕ → ℚ) (now : ℚ)
    (i : ℕ) : RawRow :=
  { id := some (RId.str ("mock-" ++ toString i))
    created_at := now - (i : ℚ) * 15 * 60000
    temp := none
    temperature := some (22 + sine ((i : ℚ) * (1/2)) * 5 + (randT i * 2 - 1))
    hum := none
    humidity := some (55 + cosine ((i : ℚ) * (1/2)) * 10 + (randH i * 4 - 2)) }

/-- The mock client's fabricated batch:
`Array.from({length: count || 10}).map((_, i) => ...)`. `count || 10`
falls back to 10 exactly when `count` is falsy, i.e. 0. -/
def mockData (sine cosine : ℚ → ℚ) (randT randH : ℕ → ℚ) (now : ℚ)
    (count : ℕ) : List RawRow :=
  (List.range (if count = 0 then 10 else count)).map
    (mockRow sine cosine randT randH now)

/-- A reading at a given timestamp, used for concrete chart-width and
window scenarios. -/
def atTime (t : ℚ) : Reading :=
  { id := RId.num 0, created_at := t, temperature := 0, humidity := 0 }

/-- A concrete batch of 57 readings for the progressive-reveal scenario. -/
def rs57 : List Reading :=
  (List.range 57).map (fun (i : ℕ) => atTime (i : ℚ))

/-- A concrete raw row carrying both spellings of both fields, with
distinct values: `temp = 21.5`, `temperature = 25`, `hum = 60`,
`humidity = 50`. -/
def rowBoth : RawRow :=
  { id := none, created_at := 0, temp := some (43/2), temperature := some 25
    hum := some 60, humidity := some 50 }

/-- A concrete normalized reading with non-zero payload. -/
def exReading : Reading :=
  { id := RId.num 1, created_at := 0, temperature := 43/2, humidity := 60 }

/-- A concrete source-reported error. -/
def timeoutErr : SupabaseError :=
  { message := "timeout", details := "", hint := "" }

/-! ## Claim theorems -/

/-- C1 counterexample: the claim says that when both `temperature` and
`temp` are present the canonical `temperature` wins, but the code is
`item.temp ?? item.temperature ?? 0`, so on a row with `temp = 21.5` and
`temperature = 25` normalization yields `21.5`, not `25`; likewise `hum`
beats `humidity`. -/
theorem C1_canonical_preference_counterexample :
    (mapReading 0 rowBoth).temperature = 43/2 ∧
    (mapReading 0 rowBoth).temperature ≠ 25 ∧
    (mapReading 0 rowBoth).humidity = 60 ∧
    (mapReading 0 rowBoth).humidity ≠ 50 := by
  refine ⟨rfl, ?_, rfl, ?_⟩ <;> norm_num [mapReading, rowBoth]

/-- C1 amended: normalization prefers the alternate field name: if both
`temp` and `temperature` are present, the normalized temperature equals
the raw `temp` value; if only `temperature` is present, it equals that
value. The analogous rule (with `hum` preferred) holds for humidity. -/
theorem C1_alternate_name_preference :
    (∀ (i : ℕ) (idv : Option RId) (ca q : ℚ) (tq h hq : Option ℚ),
      (mapReading i ⟨idv, ca, some q, tq, h, hq⟩).temperature = q) ∧
    (∀ (i : ℕ) (idv : Option RId) (ca tq : ℚ) (h hq : Option ℚ),
      (mapReading i ⟨idv, ca, none, some tq, h, hq⟩).temperature = tq) ∧
    (∀ (i : ℕ) (idv : Option RId) (ca q : ℚ) (t tq hq : Option ℚ),
      (mapReading i ⟨idv, ca, t, tq, some q, hq⟩).humidity = q) ∧
    (∀ (i : ℕ) (idv : Option RId) (ca hq : ℚ) (t tq : Option ℚ),
      (mapReading i ⟨idv, ca, t, tq, none, some hq⟩).humidity = hq) :=
  ⟨fun _ _ _ _ _ _ _ => rfl, fun _ _ _ _ _ _ => rfl,
   fun _ _ _ _ _ _ _ => rfl, fun _ _ _ _ _ _ => rfl⟩

/-- C5: a raw record missing both the canonical and the alternate field
name normalizes to the default 0: no `temp` and no `temperature` gives
temperature 0, and no `hum` and no `humidity` gives humidity 0. -/
theorem C5_default_zero :
    (∀ (i : ℕ) (idv : Option RId) (ca : ℚ) (h hq : Option ℚ),
      (mapReading i ⟨idv, ca, none, none, h, hq⟩).temperature = 0) ∧
    (∀ (i : ℕ) (idv : Option RId) (ca : ℚ) (t tq : Option ℚ),
      (mapReading i ⟨idv, ca, t, tq, none, none⟩).humidity = 0) :=
  ⟨fun _ _ _ _ _ => rfl, fun _ _ _ _ _ => rfl⟩

/-- C6: on the empty reading list the derived "latest reading" is the
zero-valued placeholder (temperature 0, humidity 0) — the computation is
a total function, so no error is raised — and on every non-empty list it
is the first element. -/
theorem C6_latest_placeholder :
    latest [] = LatestView.placeholder ∧
    (latest []).temperature = 0 ∧
    (latest []).humidity = 0 ∧
    ∀ (r : Reading) (rs : List Reading), latest (r :: rs) = LatestView.reading r :=
  ⟨rfl, rfl, rfl, fun _ _ => rfl⟩

/-- C2 counterexample: the claim says that on a source-reported error the
fetch leaves the caller observing an empty reading list, but `fetchData`
only logs the error and never clears the state: from a state holding one
reading, an error response leaves that reading in place. -/
theorem C2_error_empty_counterexample :
    ((fetchData (.resp none (some timeoutErr))
        { readings := [exReading], visibleCount := 20 }).1).readings ≠ [] := by
  simp [fetchData]

/-- C2 amended: when the data source reports an error (and no data), the
fetch logs the error detail (message, details, hint), does not throw
(`fetchData` is total and returns a plain state/log pair), and leaves the
readings state unchanged rather than propagating the error — so from the
initial empty state the caller observes the empty list, but a previously
fetched list stays visible as stale data. -/
theorem C2_error_swallowed (e : SupabaseError) (s : DashState) :
    fetchData (.resp none (some e)) s =
      (s, [LogEntry.supabaseError e.message e.details e.hint]) ∧
    (s.readings = [] → ((fetchData (.resp none (some e)) s).1).readings = []) :=
  ⟨rfl, fun h => h⟩

/-- Witness for C2: the timeout scenario from the initial (empty) state:
the state is unchanged — the caller observes the empty list — and the
message/details/hint log entry is emitted. -/
theorem C2_error_swallowed_witness :
    ((fetchData (.resp none (some timeoutErr)) initialDashState).1).readings
      = [] :=
  (C2_error_swallowed timeoutErr initialDashState).2 rfl

/-- The normalization keeps the batch length, whatever the running index. -/
lemma mappedReadingsAux_length (n : ℕ) (data : List RawRow) :
    (mappedReadingsAux n data).length = data.length := by
  induction data generalizing n with
  | nil => rfl
  | cons item rest ih => simp [mappedReadingsAux, ih]

/-- Index-wise description of the normalization with a running index. -/
lemma mappedReadingsAux_get? (n : ℕ) (data : List RawRow) (i : ℕ) :
    (mappedReadingsAux n data).get? i = (data.get? i).map (mapReading (n + i)) := by
  induction data generalizing n i with
  | nil => rfl
  | cons item rest ih =>
    cases i with
    | zero => rfl
    | succ j =>
      show (mappedReadingsAux (n + 1) rest).get? j
          = (rest.get? j).map (mapReading (n + (j + 1)))
      rw [ih, show n + 1 + j = n + (j + 1) from by omega]

/-- C3: the chart width is a pure function of the reading list: with fewer
than 2 readings it is 100 percent; otherwise, with
`durationHours = (timestamp of element 0 - timestamp of the last element)
/ 3600000`, it is `durationHours / 24 * 100` percent when
`durationHours > 24` and 100 percent otherwise; a 48-hour span yields
200, a 12-hour span yields 100, a single reading yields 100. -/
theorem C3_chart_width :
    (∀ rs : List Reading, rs.length < 2 → getChartWidth rs = 100) ∧
    (∀ (r r2 : Reading) (rs : List Reading),
      getChartWidth (r :: r2 :: rs) =
        (if (r.created_at - (List.getLastD rs r2).created_at) / 3600000 > 24
         then (r.created_at - (List.getLastD rs r2).created_at) / 3600000 / 24 * 100
         else 100)) ∧
    getChartWidth [atTime (48 * 3600000), atTime 0] = 200 ∧
    getChartWidth [atTime (12 * 3600000), atTime 0] = 100 ∧
    getChartWidth [atTime 0] = 100 := by
  refine ⟨?_, ?_, ?_, ?_, rfl⟩
  · intro rs h
    match rs with
    | [] => rfl
    | [_] => rfl
    | _ :: _ :: _ => simp at h; omega
  · intro r r2 rs
    show (if (r.created_at - (List.getLastD rs r2).created_at) / (1000 * 60 * 60) > 24
          then (r.created_at - (List.getLastD rs r2).created_at) / (1000 * 60 * 60) / 24 * 100
          else 100) = _
    norm_num
  · norm_num [getChartWidth, atTime]
  · norm_num [getChartWidth, atTime]

/-- Witness for C3: the empty list has fewer than 2 readings and yields
width 100. -/
theorem C3_chart_width_witness : getChartWidth ([] : List Reading) = 100 :=
  C3_chart_width.1 [] (by decide)

/-- The concrete 57-reading batch has 57 elements. -/
lemma rs57_length : rs57.length = 57 := by
  rw [rs57, List.length_map, List.length_range]

/-- C4: the reveal window starts at 20; every scroll-threshold trigger
(scroll within 50 layout units of the bottom) sets it to
`min (previous + 20) total`; every successful fetch resets it to 20; and
with 57 readings the sequence under repeated triggers is 20, 40, 57, 57
(capped, not 80). -/
theorem C4_progressive_reveal :
    initialDashState.visibleCount = 20 ∧
    (∀ (rows : List RawRow) (err : Option SupabaseError) (s : DashState),
      ((fetchData (.resp (some rows) err) s).1).visibleCount = 20) ∧
    (∀ (sT cH sH : ℚ) (s : DashState), sH - sT ≤ cH + 50 →
      (handleScroll sT cH sH s).visibleCount
        = min (s.visibleCount + 20) s.readings.length) ∧
    ((handleScroll 0 100 100 { readings := rs57, visibleCount := 20 }).visibleCount
        = 40 ∧
     (handleScroll 0 100 100 (handleScroll 0 100 100
        { readings := rs57, visibleCount := 20 })).visibleCount = 57 ∧
     (handleScroll 0 100 100 (handleScroll 0 100 100 (handleScroll 0 100 100
        { readings := rs57, visibleCount := 20 }))).visibleCount = 57) := by
  refine ⟨rfl, ?_, ?_, ?_, ?_, ?_⟩
  · intro rows err s
    cases err <;> rfl
  · intro sT cH sH s h
    unfold handleScroll
    rw [if_pos h]
  · norm_num [handleScroll, rs57_length]
  · norm_num [handleScroll, rs57_length]
  · norm_num [handleScroll, rs57_length]

/-- Witness for C4: one trigger at `(scrollTop, clientHeight,
scrollHeight) = (0, 100, 100)` from the initial state follows the
`min (prev + 20) total` rule. -/
theorem C4_progressive_reveal_witness :
    (handleScroll 0 100 100 initialDashState).visibleCount
      = min (initialDashState.visibleCount + 20)
          initialDashState.readings.length :=
  C4_progressive_reveal.2.2.1 0 100 100 initialDashState (by norm_num)

/-- C10: after any scroll-threshold trigger the reveal window never
exceeds the total reading count, and when the total is below the previous
window the trigger shrinks the window down to the total. -/
theorem C10_window_capped (sT cH sH : ℚ) (s : DashState)
    (h : sH - sT ≤ cH + 50) :
    (handleScroll sT cH sH s).visibleCount ≤ s.readings.length ∧
    (s.readings.length < s.visibleCount →
      (handleScroll sT cH sH s).visibleCount = s.readings.length) := by
  unfold handleScroll
  rw [if_pos h]
  refine ⟨min_le_right _ _, fun hlt => ?_⟩
  exact Nat.min_eq_right (le_trans (Nat.le_of_lt hlt) (Nat.le_add_right _ 20))

/-- Witness for C10: with no readings and a window of 20, a trigger
shrinks the window to 0. -/
theorem C10_window_capped_witness :
    (handleScroll 0 100 100 { readings := [], visibleCount := 20 }).visibleCount
      = 0 :=
  (C10_window_capped 0 100 100 { readings := [], visibleCount := 20 }
    (by norm_num)).2 (by decide)

/-- C7: the normalization pipeline is deterministic in its input: two
polls receiving the same raw row set produce element-wise equal reading
lists (same normalized record at every index, hence same id, created_at,
temperature and humidity). -/
theorem C7_deterministic (d1 d2 : List RawRow) (h : d1 = d2) :
    (mappedReadings d1).length = (mappedReadings d2).length ∧
    ∀ i : ℕ, (mappedReadings d1).get? i = (mappedReadings d2).get? i := by
  subst h
  exact ⟨rfl, fun _ => rfl⟩

/-- Witness for C7: two polls of the same one-row batch agree element-wise. -/
theorem C7_deterministic_witness :
    (mappedReadings [rowBoth]).length = (mappedReadings [rowBoth]).length ∧
    ∀ i : ℕ, (mappedReadings [rowBoth]).get? i = (mappedReadings [rowBoth]).get? i :=
  C7_deterministic [rowBoth] [rowBoth] rfl

/-- C9: normalization is a per-record map preserving the batch shape: one
reading per raw row in the same order (`(mappedReadings data)[i] =
mapReading i data[i]`), `created_at` passes through unchanged, a present
raw `id` is kept, and an absent one is synthesized as
`reading-<index>` from the row's position. -/
theorem C9_per_record_map :
    (∀ data : List RawRow, (mappedReadings data).length = data.length) ∧
    (∀ (data : List RawRow) (i : ℕ),
      (mappedReadings data).get? i = (data.get? i).map (mapReading i)) ∧
    (∀ (i : ℕ) (row : RawRow), (mapReading i row).created_at = row.created_at) ∧
    (∀ (i : ℕ) (v : RId) (ca : ℚ) (t tq h hq : Option ℚ),
      (mapReading i ⟨some v, ca, t, tq, h, hq⟩).id = v) ∧
    (∀ (i : ℕ) (ca : ℚ) (t tq h hq : Option ℚ),
      (mapReading i ⟨none, ca, t, tq, h, hq⟩).id
        = RId.str ("reading-" ++ toString i)) := by
  refine ⟨fun data => mappedReadingsAux_length 0 data, fun data i => ?_,
    fun _ _ => rfl, fun _ _ _ _ _ _ _ => rfl, fun _ _ _ _ _ _ => rfl⟩
  rw [mappedReadings, mappedReadingsAux_get?, Nat.zero_add]

/-- C8: when the data-source URL or the access credential is absent (or
an empty string), or the URL contains the placeholder
`your-project-url`, the module selects the mock client and emits the
warning; the synthetic generator fabricates one row per index with
sine-wave temperature `22 + 5·sin(i/2)` plus jitter in [-1,1), cosine-wave
humidity `55 + 10·cos(i/2)` plus jitter in [-2,2), at 15-minute
(900000 ms) intervals. -/
theorem C8_mock_fallback :
    (∀ key : Option String, isMock none key = true) ∧
    (∀ url : Option String, isMock url none = true) ∧
    (∀ (s : String) (key : Option String),
      jsIncludes s "your-project-url" = true → isMock (some s) key = true) ∧
    (∀ url key : Option String, isMock url key = true →
      supabaseClient url key = Client.mock ∧
      startupWarnings url key
        = ["Supabase Environment Variables missing. Using Mock Client."]) ∧
    (∀ (sine cosine : ℚ → ℚ) (randT randH : ℕ → ℚ) (now : ℚ) (count : ℕ),
      (mockData sine cosine randT randH now count).length
        = (if count = 0 then 10 else count) ∧
      (∀ i : ℕ, i < (if count = 0 then 10 else count) →
        (mockData sine cosine randT randH now count).get? i
          = some (mockRow sine cosine randT randH now i)) ∧
      (∀ i : ℕ, (mockRow sine cosine randT randH now i).created_at
          - (mockRow sine cosine randT randH now (i + 1)).created_at
            = 15 * 60000) ∧
      (∀ i : ℕ, (mockRow sine cosine randT randH now i).temperature
          = some (22 + sine ((i : ℚ) * (1/2)) * 5 + (randT i * 2 - 1))) ∧
      (∀ i : ℕ, (mockRow sine cosine randT randH now i).humidity
          = some (55 + cosine ((i : ℚ) * (1/2)) * 10 + (randH i * 4 - 2)))) := by
  refine ⟨fun key => rfl, ?_, ?_, ?_, ?_⟩
  · intro url
    simp [isMock, jsTruthyStr]
  · intro s key h
    simp [isMock, h]
  · intro url key h
    exact ⟨by simp [supabaseClient, h], by simp [startupWarnings, h]⟩
  · intro sine cosine randT randH now count
    refine ⟨?_, ?_, ?_, fun _ => rfl, fun _ => rfl⟩
    · rw [mockData, List.length_map, List.length_range]
    · intro i hi
      rw [mockData, List.get?_map, List.get?_range hi]
      rfl
    · intro i
      simp only [mockRow]
      push_cast
      ring

/-- Witness for C8: a URL that is exactly the placeholder string selects
the mock client. -/
theorem C8_mock_fallback_witness :
    isMock (some "your-project-url") none = true :=
  C8_mock_fallback.2.2.1 "your-project-url" none (by decide)
